import Mathlib

/-!
# Verification of the `rzen` remote-deployment core

A shallow embedding of the Rust sources (`src/utils.rs`,
`src/commands/deploy.rs`, `src/commands/monitor.rs`, `src/config.rs`) of the
`rzen` deployment tool, together with theorems settling the specification
claims about it.

Modelling conventions:
* Remote command execution (`utils::ssh::execute_command`) is driven by an
  oracle `exec : String → ExecOutcome` giving, for each command string sent
  over the session, either a channel-level failure or an exit status with
  captured stdout/stderr.  Within a single run each distinct command string
  is issued at most once, so a stateless oracle loses no generality.
* Fallible Rust functions returning `anyhow::Result` become `Except String`
  (the `String` is the error message).
* Side effects on the remote host are recorded in an explicit trace of
  structured events; each event corresponds to exactly one I/O action of the
  source and carries the arguments from which the source renders its command
  string.
* `f64` progress literals (`16.67`, `33.33`, …) are modelled as the exact
  decimal rationals they denote in the source text.
-/

namespace Rzen

/-! ## `commands/monitor.rs`: `ApplicationStatus` -/

/-- Model of `ApplicationStatus` from `src/commands/monitor.rs` (lines 216–223).
`response_time` is a millisecond count (the `Duration` is only displayed). -/
structure ApplicationStatus where
  health_ok : Bool
  ssh_ok : Bool
  response_time : Option Nat
  service_status : Option String
  last_error : Option String
  deriving Repr, DecidableEq

/-- Model of `ApplicationStatus::is_healthy` (monitor.rs lines 227–229):
`self.health_ok && self.ssh_ok && matches!(self.service_status.as_deref(), Some("active"))`. -/
def ApplicationStatus.is_healthy (s : ApplicationStatus) : Bool :=
  s.health_ok && s.ssh_ok && (s.service_status == some "active")

/-- Model of `ApplicationStatus::summary` (monitor.rs lines 232–254): the healthy
branch returns a fixed string; otherwise the issue list is assembled from
the three failing conjuncts and joined with `", "`. -/
def ApplicationStatus.summary (s : ApplicationStatus) : String :=
  if s.is_healthy then
    "All systems operational"
  else
    let issues : List String :=
      (if !s.health_ok then ["Health check failing"] else []) ++
      (if !s.ssh_ok then ["SSH connection failed"] else []) ++
      (if !(s.service_status == some "active") then ["Service not active"] else [])
    if issues.isEmpty then
      "Status unknown"
    else
      "Issues: " ++ String.intercalate ", " issues

/-! ## `commands/monitor.rs`: `ApplicationMonitor::run_continuous`

`check_status` (monitor.rs lines 86–117) always returns `Ok`: every probe
failure is folded into the returned `ApplicationStatus` fields.  We therefore
model the status observed at iteration `i` by an oracle
`statuses : Nat → ApplicationStatus`. -/

/-- One observable step of the continuous-monitoring loop. -/
inductive MonitorEvent where
  | probe (iteration : Nat)
  | display (status : ApplicationStatus)
  | sleepSecs (interval : Nat)
  deriving Repr, DecidableEq

/-- The loop body of `ApplicationMonitor::run_continuous` (monitor.rs lines
53–66), entered with the current value of the `iteration` counter: increment,
probe (`check_status`), display, break once `iteration >= 10`, otherwise
sleep for the configured interval and continue. -/
def run_continuous_from (statuses : Nat → ApplicationStatus) (interval : Nat)
    (iteration : Nat) : List MonitorEvent :=
  let i := iteration + 1
  let ev := [MonitorEvent.probe i, MonitorEvent.display (statuses i)]
  if 10 ≤ i then
    ev
  else
    ev ++ MonitorEvent.sleepSecs interval :: run_continuous_from statuses interval i
termination_by 10 - iteration
decreasing_by simp_wf; omega

/-- Model of `ApplicationMonitor::run_continuous` (monitor.rs lines 50–69): run the
loop starting from `iteration = 0` and return the fixed success message. -/
def run_continuous (statuses : Nat → ApplicationStatus) (interval : Nat) :
    List MonitorEvent × Except String String :=
  (run_continuous_from statuses interval 0, .ok "Continuous monitoring completed")

/-! ## `utils.rs` / `config.rs`: configuration -/

/-- The fields of `config::Config` consumed by the deployment and rollback
paths (`project.name`, `deploy.service_name`, `deploy.vps_host`,
`deploy.vps_user`, `deploy.deploy_path`). -/
structure Config where
  projectName : String
  serviceNameOpt : Option String
  vpsHost : String
  vpsUser : String
  deployPath : String
  deriving Repr, DecidableEq

/-- Model of `Config::binary_name` (config.rs lines 254–256): `self.project.name`. -/
def Config.binary_name (c : Config) : String := c.projectName

/-- Model of `Config::service_name` (config.rs lines 259–264):
`self.deploy.service_name` or `"{project.name}.service"`. -/
def Config.service_name (c : Config) : String :=
  c.serviceNameOpt.getD (c.projectName ++ ".service")

/-! ## `utils.rs`: remote command execution -/

/-- What the remote side does with one executed command: either the channel
itself fails (open/exec/read/wait errors, all surfaced as `Err` by the
source), or the command runs to completion with an exit status and captured
stdout/stderr. -/
inductive ExecOutcome where
  | channelErr (msg : String)
  | exited (code : Int) (stdout stderr : String)
  deriving Repr, DecidableEq

/-- Model of `utils::ssh::execute_command` (utils.rs lines 88–110): run the command,
collect stdout/stderr, and classify a non-zero exit status as an error
carrying the exit code, the command and the captured stderr. -/
def execute_command (exec : String → ExecOutcome) (command : String) :
    Except String (String × String) :=
  match exec command with
  | .channelErr msg => .error msg
  | .exited code stdout stderr =>
    if code ≠ 0 then
      .error ("Command failed with exit code " ++ toString code ++ ": " ++ command
        ++ "\nstderr: " ++ stderr)
    else
      .ok (stdout, stderr)

/-- Rust's `str::trim`: strip leading and trailing whitespace.  Implemented
over the character list so that it evaluates by kernel reduction (Lean's own
`String.trim` is defined by position recursion that `decide`/`rfl` cannot
unfold).  Rust trims Unicode `White_Space`; the outputs compared in this
development are plain ASCII, where `Char.isWhitespace` agrees. -/
def rustTrim (s : String) : String :=
  ⟨((s.data.dropWhile Char.isWhitespace).reverse.dropWhile Char.isWhitespace).reverse⟩

/-- The shell probe issued by `utils::ssh::remote_file_exists`
(utils.rs line 147). -/
def probeCmd (path : String) : String :=
  "[ -f " ++ path ++ " ] && echo 'exists' || echo 'not exists'"

/-- Model of `utils::ssh::remote_file_exists` (utils.rs lines 146–151): map the probe
output to a boolean; any execution error is treated as `false`.  The source
returns `Result<bool>` but never `Err`, so the model returns `Bool`. -/
def remote_file_exists (exec : String → ExecOutcome) (path : String) : Bool :=
  match execute_command exec (probeCmd path) with
  | .ok (output, _) => rustTrim output == "exists"
  | .error _ => false

/-! ## `utils.rs`: `connect_with_retry` -/

/-- Observable steps of `utils::ssh::connect_with_retry`: one connection
attempt (`connect_ssh`) per loop iteration, and the backoff sleeps between
failed attempts. -/
inductive ConnectEvent where
  | attempt (i : Nat)
  | sleepSecs (n : Nat)
  deriving Repr, DecidableEq

/-- Seconds slept by a `ConnectEvent`, `none` for attempts. -/
def ConnectEvent.sleepOf : ConnectEvent → Option Nat
  | .sleepSecs n => some n
  | _ => none

/-- Attempt number of a `ConnectEvent`, `none` for sleeps. -/
def ConnectEvent.attemptOf : ConnectEvent → Option Nat
  | .attempt i => some i
  | _ => none

/-- The `for attempt in 1..=max_retries` loop of
`utils::ssh::connect_with_retry` (utils.rs lines 29–47), over the remaining
attempt numbers.  `connect_ssh` at attempt `i` is modelled by the oracle
`f i`.  On success the loop returns the session immediately; on failure the
error is remembered and, when `attempt < max_retries`, the loop sleeps
`2_u64.pow(attempt - 1)` seconds before the next attempt.  The delay is a
`u64`, so the exponentiation is computed modulo `2^64`: in release builds
(the shipped profile) it wraps — giving a 0-second sleep from attempt 65
on — and under debug overflow checks it would panic instead; the model uses
the wrapping (release) semantics. -/
def connect_attempts (f : Nat → Except String Unit) (max_retries : Nat) :
    List Nat → Option String → List ConnectEvent × Except String Unit
  | [], lastError =>
    ([], .error (lastError.getD
      ("SSH connection failed after " ++ toString max_retries ++ " attempts")))
  | attempt :: rest, _ =>
    match f attempt with
    | .ok _ => ([.attempt attempt], .ok ())
    | .error e =>
      if attempt < max_retries then
        let r := connect_attempts f max_retries rest (some e)
        (.attempt attempt :: .sleepSecs (2 ^ (attempt - 1) % 2 ^ 64) :: r.1, r.2)
      else
        let r := connect_attempts f max_retries rest (some e)
        (.attempt attempt :: r.1, r.2)

/-- Model of `utils::ssh::connect_with_retry` (utils.rs lines 26–50): iterate the
attempt loop over `1..=max_retries`; on exhaustion return the last stored
error (the fallback message is unreachable for `max_retries ≥ 1`). -/
def connect_with_retry (f : Nat → Except String Unit) (max_retries : Nat) :
    List ConnectEvent × Except String Unit :=
  connect_attempts f max_retries (List.range' 1 max_retries) none

/-! ## `utils.rs`: `upload_file` -/

/-- Split a byte list into the successive `file.read(&mut buffer)` chunks of
the 8192-byte upload loop (utils.rs lines 120–127). -/
def chunkBytes (bytes : List Nat) : List (List Nat) :=
  if bytes = [] then []
  else bytes.take 8192 :: chunkBytes (bytes.drop 8192)
termination_by bytes.length
decreasing_by
  rename_i h
  have hpos : 0 < bytes.length := List.length_pos.mpr h
  simp only [List.length_drop]
  omega

/-- Everything `utils::ssh::upload_file` does to the SCP channel on its
success path: which path the channel was opened on (the first argument of
`session.scp_send`), the file mode and declared length, the chunk sequence
written, and the end-of-stream / close handshake. -/
structure UploadTranscript where
  scpTarget : String
  mode : Nat
  declaredLen : Nat
  chunks : List (List Nat)
  eofSent : Bool
  closedCleanly : Bool
  deriving Repr, DecidableEq

/-- Model of `utils::ssh::upload_file` (utils.rs lines 113–136).  Oracles:
`fs` reads a local file's bytes (`none` = open/metadata failure), `scpOpen`
is the outcome of `session.scp_send(path, mode, len, None)`, and
`chanOutcome` collapses the fallible writes and the
`send_eof/wait_eof/close/wait_close` handshake.  Note the source passes
`local_path`, not `remote_path`, as the `scp_send` target; `remote_path`
only appears in error context messages and the success log line. -/
def upload_file (fs : String → Option (List Nat))
    (scpOpen : String → Nat → Nat → Except String Unit)
    (chanOutcome : Except String Unit)
    (local_path remote_path : String) : Except String UploadTranscript :=
  match fs local_path with
  | none => .error ("Failed to open local file: " ++ local_path)
  | some bytes =>
    match scpOpen local_path 0o644 bytes.length with
    | .error _ => .error ("Failed to initiate SCP upload to: " ++ remote_path)
    | .ok _ =>
      match chanOutcome with
      | .error e => .error e
      | .ok _ =>
        .ok { scpTarget := local_path
              mode := 0o644
              declaredLen := bytes.length
              chunks := chunkBytes bytes
              eofSent := true
              closedCleanly := true }

/-! ## `commands/deploy.rs`: rendered command strings

Each helper renders exactly the `format!` string the source sends through
`execute_command`. -/

/-- Model of `mkdir -p {path}` (utils.rs line 140, via `create_remote_directory`). -/
def mkdirCmd (path : String) : String := "mkdir -p " ++ path

/-- Model of `cp {src} {dst}` (deploy.rs lines 130–133 and 393–396). -/
def cpCmd (src dst : String) : String := "cp " ++ src ++ " " ++ dst

/-- Model of `chmod +x {path}` (deploy.rs lines 144 and 397). -/
def chmodCmd (path : String) : String := "chmod +x " ++ path

/-- Model of `cat > {tmp} << 'EOF'\n{content}\nEOF` (deploy.rs lines 177–183). -/
def catUnitCmd (tmpPath content : String) : String :=
  "cat > " ++ tmpPath ++ " << 'EOF'\n" ++ content ++ "\nEOF"

/-- Model of `sudo mv {tmp} /etc/systemd/system/` (deploy.rs lines 185–188). -/
def mvUnitCmd (tmpPath : String) : String :=
  "sudo mv " ++ tmpPath ++ " /etc/systemd/system/"

/-- Model of `sudo systemctl daemon-reload` (deploy.rs line 190). -/
def daemonReloadCmd : String := "sudo systemctl daemon-reload"

/-- Model of `sudo systemctl stop {name}` (deploy.rs lines 236 and 374). -/
def systemctlStop (name : String) : String := "sudo systemctl stop " ++ name

/-- Model of `sudo systemctl enable {name}` (deploy.rs line 238). -/
def systemctlEnable (name : String) : String := "sudo systemctl enable " ++ name

/-- Model of `sudo systemctl start {name}` (deploy.rs lines 239 and 401). -/
def systemctlStart (name : String) : String := "sudo systemctl start " ++ name

/-- Model of `sudo systemctl is-active {name}` (deploy.rs lines 241–244 and 404–407). -/
def systemctlIsActive (name : String) : String :=
  "sudo systemctl is-active " ++ name

/-! ## `commands/deploy.rs`: events and host oracle -/

/-- One observable side effect of the deployment/rollback pipeline.  Command
events carry the arguments from which the corresponding command string above
is rendered; `progress` is one invocation of the progress callback. -/
inductive RemoteEvent where
  | connectAttempt
  | mkdir (path : String)
  | probeFile (path : String)
  | cpFile (src dst : String)
  | uploadFile (localPath remotePath : String)
  | chmod (path : String)
  | writeUnit (tmpPath content : String)
  | moveUnit (tmpPath : String)
  | daemonReload
  | svcStop (name : String)
  | svcEnable (name : String)
  | svcStart (name : String)
  | svcIsActive (name : String)
  | progress (fraction : ℚ) (message : String)
  deriving Repr, DecidableEq

/-- The progress fraction of an event, `none` for remote actions. -/
def RemoteEvent.progressOf : RemoteEvent → Option (ℚ × String)
  | .progress f m => some (f, m)
  | _ => none

/-- Is this event one of the four `systemctl` service-lifecycle commands? -/
def RemoteEvent.isServiceCmd : RemoteEvent → Bool
  | .svcStop _ => true
  | .svcEnable _ => true
  | .svcStart _ => true
  | .svcIsActive _ => true
  | _ => false

/-- Everything the remote host and the local filesystem answer during a
deployment: `attemptRes i` is the outcome of `connect_ssh` at attempt `i`
inside `connect_with_retry`, `exec` answers executed commands, and
`fs`/`scpOpen`/`chanOutcome` drive `upload_file`. -/
structure Host where
  attemptRes : Nat → Except String Unit
  exec : String → ExecOutcome
  fs : String → Option (List Nat)
  scpOpen : String → Nat → Nat → Except String Unit
  chanOutcome : Except String Unit

/-! ## `commands/deploy.rs`: service lifecycle -/

/-- Model of `start_service` (deploy.rs lines 235–251): best-effort stop (the result
is bound to `_` and discarded), then `enable`, then `start`, then an
`is-active` query whose trimmed output must be exactly `"active"`. -/
def start_service (exec : String → ExecOutcome) (service_name : String) :
    List RemoteEvent × Except String Unit :=
  -- `let _ = execute_command(session, "sudo systemctl stop {name}")`:
  -- issued, outcome discarded.
  let t1 : List RemoteEvent := [.svcStop service_name]
  match execute_command exec (systemctlEnable service_name) with
  | .error e => (t1 ++ [.svcEnable service_name], .error e)
  | .ok _ =>
  match execute_command exec (systemctlStart service_name) with
  | .error e => (t1 ++ [.svcEnable service_name, .svcStart service_name], .error e)
  | .ok _ =>
  match execute_command exec (systemctlIsActive service_name) with
  | .error e =>
    (t1 ++ [.svcEnable service_name, .svcStart service_name, .svcIsActive service_name],
      .error e)
  | .ok (output, _) =>
    let t := t1 ++ [.svcEnable service_name, .svcStart service_name,
      .svcIsActive service_name]
    if rustTrim output ≠ "active" then
      (t, .error ("Service " ++ service_name ++ " failed to start"))
    else
      (t, .ok ())

/-- Model of `generate_systemd_service` (deploy.rs lines 197–232): the fixed unit
template rendered with binary name, user, working directory and exec path. -/
def generate_systemd_service (cfg : Config) : String :=
  let binary_path := cfg.deployPath ++ "/" ++ cfg.binary_name
  let working_directory := cfg.deployPath
  "[Unit]\nDescription=" ++ cfg.binary_name ++ " - Rust Application\n"
    ++ "After=network.target\n\n[Service]\nType=simple\nUser=" ++ cfg.vpsUser
    ++ "\nWorkingDirectory=" ++ working_directory
    ++ "\nExecStart=" ++ binary_path
    ++ "\nRestart=always\nRestartSec=5\nStandardOutput=journal\n"
    ++ "StandardError=journal\nSyslogIdentifier=" ++ cfg.binary_name
    ++ "\n\n# Security settings\nNoNewPrivileges=yes\nPrivateTmp=yes\n"
    ++ "ProtectSystem=strict\nReadWritePaths=" ++ working_directory
    ++ "\nProtectHome=yes\n\n[Install]\nWantedBy=multi-user.target\n"

/-- Model of `create_systemd_service` (deploy.rs lines 172–194): write the rendered
unit to `/tmp/{service_name}`, move it into `/etc/systemd/system/` with
`sudo`, and `daemon-reload`. -/
def create_systemd_service (exec : String → ExecOutcome) (cfg : Config) :
    List RemoteEvent × Except String Unit :=
  let service_name := cfg.service_name
  let content := generate_systemd_service cfg
  let temp := "/tmp/" ++ service_name
  match execute_command exec (catUnitCmd temp content) with
  | .error e => ([.writeUnit temp content], .error e)
  | .ok _ =>
  match execute_command exec (mvUnitCmd temp) with
  | .error e => ([.writeUnit temp content, .moveUnit temp], .error e)
  | .ok _ =>
  match execute_command exec daemonReloadCmd with
  | .error e => ([.writeUnit temp content, .moveUnit temp, .daemonReload], .error e)
  | .ok _ => ([.writeUnit temp content, .moveUnit temp, .daemonReload], .ok ())

/-! ## `commands/deploy.rs`: the deployment pipeline -/

/-- Model of `format!("{}/{}", deploy_path, binary_name())` (deploy.rs line 119). -/
def remote_binary_path (cfg : Config) : String :=
  cfg.deployPath ++ "/" ++ cfg.binary_name

/-- Model of `format!("{}/{}.backup", deploy_path, binary_name())`
(deploy.rs lines 120–124). -/
def backup_binary_path (cfg : Config) : String :=
  cfg.deployPath ++ "/" ++ cfg.binary_name ++ ".backup"

/-- Model of `if let Some(callback) = progress_callback { callback(f, message) }`:
one progress event when a callback was supplied, nothing otherwise. -/
def progressIf (hasCallback : Bool) (fraction : ℚ) (message : String) :
    List RemoteEvent :=
  if hasCallback then [.progress fraction message] else []

/-- Model of `execute_deployment` (deploy.rs lines 82–169): connect (3 attempts),
`mkdir -p` the deploy path, probe for an existing remote binary and back it
up with `cp` if present, upload the new binary, `chmod +x` it, install the
systemd unit, and start + verify the service.  Before each stage the
progress callback (if any) is invoked with the source's `f64` literal
fraction and message. -/
def execute_deployment (h : Host) (cfg : Config) (binary_path : String)
    (hasCallback : Bool) : List RemoteEvent × Except String String :=
  let p1 := progressIf hasCallback (1667/100) "Connecting to server..."
  match (connect_with_retry h.attemptRes 3).2 with
  | .error e => (p1 ++ [.connectAttempt], .error e)
  | .ok _ =>
  let t1 := p1 ++ [.connectAttempt]
  let p2 := progressIf hasCallback (3333/100) "Creating remote directory..."
  match execute_command h.exec (mkdirCmd cfg.deployPath) with
  | .error e => (t1 ++ p2 ++ [.mkdir cfg.deployPath], .error e)
  | .ok _ =>
  let t2 := t1 ++ p2 ++ [.mkdir cfg.deployPath]
  let p3 := progressIf hasCallback 50 "Uploading binary..."
  let rbp := remote_binary_path cfg
  let bbp := backup_binary_path cfg
  let binary_exists := remote_file_exists h.exec rbp
  let t3 := t2 ++ p3 ++ [.probeFile rbp]
  let backupStep : List RemoteEvent × Except String Unit :=
    if binary_exists then
      match execute_command h.exec (cpCmd rbp bbp) with
      | .error e => ([.cpFile rbp bbp], .error e)
      | .ok _ => ([.cpFile rbp bbp], .ok ())
    else ([], .ok ())
  match backupStep.2 with
  | .error e => (t3 ++ backupStep.1, .error e)
  | .ok _ =>
  let t4 := t3 ++ backupStep.1
  match upload_file h.fs h.scpOpen h.chanOutcome binary_path rbp with
  | .error e => (t4 ++ [.uploadFile binary_path rbp], .error e)
  | .ok _ =>
  let t5 := t4 ++ [.uploadFile binary_path rbp]
  let p4 := progressIf hasCallback (6667/100) "Setting executable permissions..."
  match execute_command h.exec (chmodCmd rbp) with
  | .error e => (t5 ++ p4 ++ [.chmod rbp], .error e)
  | .ok _ =>
  let t6 := t5 ++ p4 ++ [.chmod rbp]
  let p5 := progressIf hasCallback (8333/100) "Creating systemd service..."
  let svc := create_systemd_service h.exec cfg
  match svc.2 with
  | .error e => (t6 ++ p5 ++ svc.1, .error e)
  | .ok _ =>
  let t7 := t6 ++ p5 ++ svc.1
  let p6 := progressIf hasCallback 100 "Starting service..."
  let st := start_service h.exec cfg.service_name
  match st.2 with
  | .error e => (t7 ++ p6 ++ st.1, .error e)
  | .ok _ =>
    (t7 ++ p6 ++ st.1,
      .ok ("Successfully deployed " ++ cfg.binary_name ++ " to " ++ cfg.vpsHost))

/-- Model of `rollback_deployment` (deploy.rs lines 356–415): connect, best-effort
stop, require the backup file (fail fast when absent), `cp` the backup over
the live binary, `chmod +x`, then `start` and verify `is-active` — note
there is no `enable` step here, unlike `start_service`. -/
def rollback_deployment (h : Host) (cfg : Config) :
    List RemoteEvent × Except String Unit :=
  let service_name := cfg.service_name
  match (connect_with_retry h.attemptRes 3).2 with
  | .error e => ([.connectAttempt], .error e)
  | .ok _ =>
  -- `let _ = execute_command(session, "sudo systemctl stop {name}")`
  let t1 : List RemoteEvent := [.connectAttempt, .svcStop service_name]
  let current := cfg.deployPath ++ "/" ++ cfg.binary_name
  let backup := cfg.deployPath ++ "/" ++ cfg.binary_name ++ ".backup"
  let backup_exists := remote_file_exists h.exec backup
  let t2 := t1 ++ [.probeFile backup]
  if !backup_exists then
    (t2, .error ("No backup found for rollback. Backup file: " ++ backup))
  else
  match execute_command h.exec (cpCmd backup current) with
  | .error e => (t2 ++ [.cpFile backup current], .error e)
  | .ok _ =>
  match execute_command h.exec (chmodCmd current) with
  | .error e => (t2 ++ [.cpFile backup current, .chmod current], .error e)
  | .ok _ =>
  let t3 := t2 ++ [.cpFile backup current, .chmod current]
  match execute_command h.exec (systemctlStart service_name) with
  | .error e => (t3 ++ [.svcStart service_name], .error e)
  | .ok _ =>
  match execute_command h.exec (systemctlIsActive service_name) with
  | .error e => (t3 ++ [.svcStart service_name, .svcIsActive service_name], .error e)
  | .ok (output, _) =>
    let t4 := t3 ++ [.svcStart service_name, .svcIsActive service_name]
    if rustTrim output ≠ "active" then
      (t4, .error "Service failed to start after rollback")
    else
      (t4, .ok ())

/-! ## `commands/deploy.rs`: top-level entry -/

/-- Local-side steps of `deploy_project_with_progress`, preceding the
remote pipeline. -/
inductive TopEvent where
  | validate
  | buildStep
  | remote (e : RemoteEvent)
  deriving Repr, DecidableEq

/-- Model of `deploy_project_with_progress` (deploy.rs lines 22–78).  Oracles for the
out-of-scope collaborators: `validateRes` is the outcome of
`validate_deployment_prerequisites`, `buildRes` of `build::build_project`,
`findBinary` of `utils::fs::find_binary` (the found path), and
`binaryExists` of the local `Path::exists` check.  Under `dry_run` the
validation is skipped (`if !dry_run`) and `simulate_deployment`
(deploy.rs lines 254–270) only logs intended actions and returns a synthetic
success string. -/
def deploy_project_with_progress (h : Host) (cfg : Config)
    (validateRes : Except String Unit) (buildRes : Except String Unit)
    (findBinary : Except String String) (binaryExists : String → Bool)
    (skip_build dry_run hasCallback : Bool) :
    List TopEvent × Except String String :=
  if dry_run then
    ([], .ok ("DRY RUN: Would deploy " ++ cfg.binary_name ++ " to " ++ cfg.vpsHost))
  else
  match validateRes with
  | .error e => ([.validate], .error e)
  | .ok _ =>
  let tb : List TopEvent := if skip_build then [] else [.buildStep]
  match (if skip_build then .ok () else buildRes : Except String Unit) with
  | .error e => (.validate :: tb, .error e)
  | .ok _ =>
  match findBinary with
  | .error e => (.validate :: tb, .error e)
  | .ok binary_path =>
  if !binaryExists binary_path then
    (.validate :: tb, .error ("Binary not found: " ++ binary_path ++ ". Run build first."))
  else
    let d := execute_deployment h cfg binary_path hasCallback
    (.validate :: tb ++ d.1.map TopEvent.remote, d.2)

/-! ## Concrete fixtures for witnesses and counterexamples -/

/-- A concrete resolved configuration, matching the shape of the repo's own
test fixtures. -/
def exCfg : Config :=
  { projectName := "app"
    serviceNameOpt := some "app.service"
    vpsHost := "vps.example.com"
    vpsUser := "deploy"
    deployPath := "/opt/app" }

/-- A host on which everything succeeds; every command answers exit 0 with
stdout `"active"`, so existence probes answer "no" and state queries answer
`"active"`. -/
def okHost : Host :=
  { attemptRes := fun _ => .ok ()
    exec := fun _ => .exited 0 "active" ""
    fs := fun _ => some [1, 2, 3]
    scpOpen := fun _ _ _ => .ok ()
    chanOutcome := .ok () }

/-- Like `okHost`, but a binary already exists at the remote target path. -/
def existsHost : Host :=
  { okHost with
    exec := fun c =>
      if c = probeCmd (remote_binary_path exCfg) then .exited 0 "exists" ""
      else .exited 0 "active" "" }

/-- Like `okHost`, but a backup file exists at the backup path. -/
def rollbackHost : Host :=
  { okHost with
    exec := fun c =>
      if c = probeCmd (backup_binary_path exCfg) then .exited 0 "exists" ""
      else .exited 0 "active" "" }

/-! ## Helper lemmas -/

/-- Two strings with a common suffix but prefixes of different lengths
differ. -/
theorem append_right_ne (p q n : String) (h : p.length ≠ q.length) :
    p ++ n ≠ q ++ n := by
  intro he
  apply h
  have hl := congrArg String.length he
  rw [String.length_append, String.length_append] at hl
  omega

/-- The command `sudo systemctl enable {n}` is never the stop command. -/
theorem systemctlEnable_ne_stop (n : String) : systemctlEnable n ≠ systemctlStop n :=
  append_right_ne _ _ n (by decide)

/-- The command `sudo systemctl start {n}` is never the stop command. -/
theorem systemctlStart_ne_stop (n : String) : systemctlStart n ≠ systemctlStop n :=
  append_right_ne _ _ n (by decide)

/-- The command `sudo systemctl is-active {n}` is never the stop command. -/
theorem systemctlIsActive_ne_stop (n : String) : systemctlIsActive n ≠ systemctlStop n :=
  append_right_ne _ _ n (by decide)

/-- Trace and result of the retry loop when every attempt fails: the loop
visits the whole attempt range, sleeping `2^(i-1)` seconds after each failed
attempt `i < max_retries`, and surfaces the most recent error. -/
theorem connect_attempts_all_fail (f : Nat → Except String Unit) (e : Nat → String)
    (N : Nat) (hf : ∀ i, f i = .error (e i)) :
    ∀ (k a : Nat) (pr : Option String), a + k = N + 1 → 1 ≤ a →
      connect_attempts f N (List.range' a k) pr =
        ((List.range' a k).flatMap (fun i =>
            ConnectEvent.attempt i ::
              if i < N then [ConnectEvent.sleepSecs (2 ^ (i - 1) % 2 ^ 64)] else []),
          .error (if k = 0 then
              pr.getD ("SSH connection failed after " ++ toString N ++ " attempts")
            else e N)) := by
  intro k
  induction k with
  | zero =>
    intro a pr _ _
    simp [connect_attempts]
  | succ k ih =>
    intro a pr hak ha
    rw [List.range'_succ]
    by_cases haN : a < N
    · have hk : 1 ≤ k := by omega
      simp only [connect_attempts, hf a, if_pos haN]
      rw [ih (a + 1) (some (e a)) (by omega) (by omega)]
      simp [List.flatMap_cons, if_pos haN, if_neg (by omega : ¬(k = 0))]
    · have haN' : a = N := by omega
      have hk0 : k = 0 := by omega
      subst haN' hk0
      simp [connect_attempts, hf a, List.range']

/-- Extracting the attempt numbers from an all-fail trace gives back the
attempt range. -/
theorem flatMap_filterMap_attemptOf (N : Nat) (l : List Nat) :
    (l.flatMap (fun i => ConnectEvent.attempt i ::
        if i < N then [ConnectEvent.sleepSecs (2 ^ (i - 1) % 2 ^ 64)] else [])).filterMap
      ConnectEvent.attemptOf = l := by
  induction l with
  | nil => rfl
  | cons a t ih =>
    by_cases haN : a < N <;>
      simp [haN, ConnectEvent.attemptOf, ih, -Nat.reducePow]

/-- Extracting the sleeps from an all-fail trace: one sleep of
`2^(i-1) mod 2^64` seconds per attempt `i` below the cap. -/
theorem flatMap_filterMap_sleepOf (N : Nat) (l : List Nat) :
    (l.flatMap (fun i => ConnectEvent.attempt i ::
        if i < N then [ConnectEvent.sleepSecs (2 ^ (i - 1) % 2 ^ 64)] else [])).filterMap
      ConnectEvent.sleepOf = (l.filter (· < N)).map (fun i => 2 ^ (i - 1) % 2 ^ 64) := by
  induction l with
  | nil => rfl
  | cons a t ih =>
    by_cases haN : a < N <;>
      simp [haN, ConnectEvent.sleepOf, ConnectEvent.attemptOf, ih, -Nat.reducePow]

/-- Of the attempts `1..=N`, exactly `1..=N-1` are below the cap `N`. -/
theorem range'_filter_lt (N : Nat) (hN : 1 ≤ N) :
    (List.range' 1 N).filter (· < N) = List.range' 1 (N - 1) := by
  obtain ⟨m, rfl⟩ : ∃ m, N = m + 1 := ⟨N - 1, by omega⟩
  rw [List.range'_concat, List.filter_append]
  simp only [Nat.add_sub_cancel, Nat.one_mul]
  have h1 : (List.range' 1 m).filter (· < m + 1) = List.range' 1 m := by
    apply List.filter_eq_self.mpr
    intro x hx
    have := List.mem_range'_1.mp hx
    simp
    omega
  have h2 : [1 + m].filter (· < m + 1) = [] := by
    simp
    omega
  rw [h1, h2, List.append_nil]

/-- Reindexing the wrapped backoff delays `2^(i-1) mod 2^64` for
`i ∈ 1..=m` as `2^i mod 2^64` for `i ∈ 0..m-1`. -/
theorem range'_map_two_pow (m : Nat) :
    (List.range' 1 m).map (fun i => 2 ^ (i - 1) % 2 ^ 64)
      = (List.range m).map (fun i => 2 ^ i % 2 ^ 64) := by
  rw [List.range'_eq_map_range, List.map_map]
  apply List.map_congr_left
  intro i _
  simp

/-- For delays below the `u64` overflow point the wrap is the identity:
`2^i mod 2^64 = 2^i` whenever `i < 64`, i.e. for exponent lists drawn from
`range m` with `m ≤ 64`. -/
theorem map_two_pow_mod_eq (m : Nat) (hm : m ≤ 64) :
    (List.range m).map (fun i => 2 ^ i % 2 ^ 64) = (List.range m).map (fun i => 2 ^ i) := by
  apply List.map_congr_left
  intro i hi
  have hi64 : i < 64 := by
    have := List.mem_range.mp hi
    omega
  exact Nat.mod_eq_of_lt (Nat.pow_lt_pow_right (by omega) hi64)

/-- The list sum of the backoff delays as a `Finset` geometric sum. -/
theorem list_sum_two_pow_eq_finset_sum (m : Nat) :
    ((List.range m).map (fun i => 2 ^ i)).sum = ∑ i in Finset.range m, 2 ^ i := by
  induction m with
  | zero => rfl
  | succ m ih =>
    rw [List.range_succ, List.map_append, List.sum_append, Finset.sum_range_succ, ih]
    simp

/-- The unit-installation sub-trace contains no progress events. -/
theorem create_systemd_service_no_progress (exec : String → ExecOutcome) (cfg : Config) :
    (create_systemd_service exec cfg).1.filterMap RemoteEvent.progressOf = [] := by
  simp only [create_systemd_service]
  repeat' split
  all_goals simp [RemoteEvent.progressOf]

/-- The service-start sub-trace contains no progress events. -/
theorem start_service_no_progress (exec : String → ExecOutcome) (name : String) :
    (start_service exec name).1.filterMap RemoteEvent.progressOf = [] := by
  simp only [start_service]
  repeat' split
  all_goals simp [RemoteEvent.progressOf]

/-- The unit-installation sub-trace issues no `cp` command. -/
theorem create_systemd_service_no_cp (exec : String → ExecOutcome) (cfg : Config)
    (s d : String) : RemoteEvent.cpFile s d ∉ (create_systemd_service exec cfg).1 := by
  simp only [create_systemd_service]
  repeat' split
  all_goals simp

/-- The service-start sub-trace issues no `cp` command. -/
theorem start_service_no_cp (exec : String → ExecOutcome) (name : String)
    (s d : String) : RemoteEvent.cpFile s d ∉ (start_service exec name).1 := by
  simp only [start_service]
  repeat' split
  all_goals simp

/-- A progress-callback invocation is never an upload event. -/
theorem uploadFile_not_mem_progressIf (cb : Bool) (f : ℚ) (m lp rp : String) :
    RemoteEvent.uploadFile lp rp ∉ progressIf cb f m := by
  cases cb <;> simp [progressIf]

/-- When the existence probe reports no remote binary, the deployment trace
contains no `cp` command at all, in any branch. -/
theorem execute_deployment_no_cp_of_probe_false (h : Host) (cfg : Config)
    (bp : String) (cb : Bool)
    (hpf : remote_file_exists h.exec (remote_binary_path cfg) = false)
    (s d : String) :
    RemoteEvent.cpFile s d ∉ (execute_deployment h cfg bp cb).1 := by
  cases cb <;>
    · simp only [execute_deployment, hpf, progressIf, Bool.false_eq_true, if_false]
      repeat' split
      all_goals simp [create_systemd_service_no_cp, start_service_no_cp]

/-- When the existence probe reports an existing remote binary, either the
trace never reaches the upload, or it starts with the six pre-upload events
ending in the backup `cp` followed immediately by the upload. -/
theorem execute_deployment_upload_decomp (h : Host) (cfg : Config)
    (bp : String) (cb : Bool)
    (hpt : remote_file_exists h.exec (remote_binary_path cfg) = true) :
    (∀ lp rp, RemoteEvent.uploadFile lp rp ∉ (execute_deployment h cfg bp cb).1) ∨
    ((progressIf cb (1667/100) "Connecting to server..." ++ [RemoteEvent.connectAttempt] ++
        progressIf cb (3333/100) "Creating remote directory..." ++
        [RemoteEvent.mkdir cfg.deployPath] ++
        progressIf cb 50 "Uploading binary..." ++
        [RemoteEvent.probeFile (remote_binary_path cfg)] ++
        [RemoteEvent.cpFile (remote_binary_path cfg) (backup_binary_path cfg)] ++
        [RemoteEvent.uploadFile bp (remote_binary_path cfg)]) <+:
      (execute_deployment h cfg bp cb).1) := by
  cases cb <;>
    · simp only [execute_deployment, hpt, if_true, eq_self_iff_true, progressIf,
        Bool.false_eq_true, if_false]
      repeat' split
      all_goals
        first
        | (left; intro lp rp; simp; done)
        | (right; simp; done)
        | (exfalso; simp_all; done)

/-! ## Claim theorems -/

/-- Claim C7: for every `ApplicationStatus`, `is_healthy()` is true iff the
health probe succeeded, the session reachability probe succeeded, and the
recorded service state string is exactly `"active"`; by the iff, falsifying
any single conjunct makes it false. -/
theorem is_healthy_iff_three_conjuncts (s : ApplicationStatus) :
    s.is_healthy = true ↔
      s.health_ok = true ∧ s.ssh_ok = true ∧ s.service_status = some "active" := by
  simp [ApplicationStatus.is_healthy, Bool.and_eq_true, and_assoc]

/-- Claim C10: `summary()` returns `"All systems operational"` iff
`is_healthy()`; whenever `is_healthy()` is false at least one issue string
is collected, so the `"Status unknown"` fallback is unreachable. -/
theorem summary_operational_iff_healthy (s : ApplicationStatus) :
    (s.summary = "All systems operational" ↔ s.is_healthy = true) ∧
      s.summary ≠ "Status unknown" := by
  cases hh : s.health_ok <;> cases hs : s.ssh_ok <;>
    cases hsvc : (s.service_status == some "active") <;>
      simp [ApplicationStatus.summary, ApplicationStatus.is_healthy, hh, hs, hsvc] <;>
        decide

/-- Claim C9: `run_continuous` performs exactly 10 probe-then-display
iterations with a sleep of the configured interval between consecutive
iterations (after iterations 1–9 only), then returns a success result. -/
theorem run_continuous_exactly_ten_iterations
    (statuses : Nat → ApplicationStatus) (interval : Nat) :
    (run_continuous statuses interval).1 =
      (List.range 10).flatMap (fun k =>
        [MonitorEvent.probe (k + 1), MonitorEvent.display (statuses (k + 1))] ++
          (if k < 9 then [MonitorEvent.sleepSecs interval] else [])) ∧
    (run_continuous statuses interval).2 = .ok "Continuous monitoring completed" := by
  refine ⟨?_, rfl⟩
  simp only [run_continuous]
  rw [run_continuous_from, run_continuous_from, run_continuous_from,
    run_continuous_from, run_continuous_from, run_continuous_from,
    run_continuous_from, run_continuous_from, run_continuous_from,
    run_continuous_from]
  simp [List.range_succ]

/-- Claim C8: with `dry_run = true`, `deploy_project_with_progress` returns a
synthetic success result and performs nothing: no prerequisite validation,
no build, no connection attempt, and no remote command or transfer (its
event trace is empty), for every configuration and every oracle outcome. -/
theorem dry_run_no_side_effects (h : Host) (cfg : Config)
    (validateRes buildRes : Except String Unit) (findBinary : Except String String)
    (binaryExists : String → Bool) (skip_build hasCallback : Bool) :
    deploy_project_with_progress h cfg validateRes buildRes findBinary binaryExists
        skip_build true hasCallback =
      ([], .ok ("DRY RUN: Would deploy " ++ cfg.binary_name ++ " to " ++ cfg.vpsHost)) :=
  rfl

/-- Claim C1 (evaluation of the defect): `upload_file` opens the SCP transfer
channel on its *local* path argument, not on the remote destination: at a
concrete call with distinct paths, the path handed to `scp_send` is the
local one.  The remote-path argument is used only in error/log messages, so
the uploaded bytes land at the remote file whose name equals the local
path. -/
theorem upload_file_scp_target_is_local_path :
    (upload_file
        (fun p => if p = "/work/app/target/release/app" then some [1, 2, 3] else none)
        (fun _ _ _ => .ok ()) (.ok ())
        "/work/app/target/release/app" "/opt/app/app").map (fun t => t.scpTarget)
      = .ok "/work/app/target/release/app" ∧
    "/work/app/target/release/app" ≠ "/opt/app/app" :=
  ⟨rfl, by decide⟩

/-- Claim C6: provided the `enable`, `start` and `is-active` commands
themselves execute (the query returning stdout `qout`), `start_service`
succeeds iff `qout` trimmed is exactly `"active"`; otherwise it fails with
an error naming the service — even though `start` exited 0.  The outcome of
the initial `stop` command is discarded: any two hosts that agree on every
command except `sudo systemctl stop {name}` produce the same result. -/
theorem start_service_success_iff_active (exec exec₂ : String → ExecOutcome)
    (name : String) (eout eerr sout serr qout qerr : String)
    (hagree : ∀ c, c ≠ systemctlStop name → exec₂ c = exec c)
    (henable : execute_command exec (systemctlEnable name) = .ok (eout, eerr))
    (hstart : execute_command exec (systemctlStart name) = .ok (sout, serr))
    (hquery : execute_command exec (systemctlIsActive name) = .ok (qout, qerr)) :
    ((start_service exec name).2 = .ok () ↔ rustTrim qout = "active") ∧
    (rustTrim qout ≠ "active" →
      (start_service exec name).2
        = .error ("Service " ++ name ++ " failed to start")) ∧
    (start_service exec₂ name).2 = (start_service exec name).2 := by
  have he2 : execute_command exec₂ (systemctlEnable name)
      = execute_command exec (systemctlEnable name) := by
    unfold execute_command
    rw [hagree _ (systemctlEnable_ne_stop name)]
  have hs2 : execute_command exec₂ (systemctlStart name)
      = execute_command exec (systemctlStart name) := by
    unfold execute_command
    rw [hagree _ (systemctlStart_ne_stop name)]
  have hq2 : execute_command exec₂ (systemctlIsActive name)
      = execute_command exec (systemctlIsActive name) := by
    unfold execute_command
    rw [hagree _ (systemctlIsActive_ne_stop name)]
  have hval : (start_service exec name).2 =
      if rustTrim qout ≠ "active" then
        Except.error ("Service " ++ name ++ " failed to start")
      else Except.ok () := by
    simp only [start_service, henable, hstart, hquery]
    split <;> rfl
  have hval₂ : (start_service exec₂ name).2 =
      if rustTrim qout ≠ "active" then
        Except.error ("Service " ++ name ++ " failed to start")
      else Except.ok () := by
    simp only [start_service, he2, hs2, hq2, henable, hstart, hquery]
    split <;> rfl
  refine ⟨?_, ?_, ?_⟩
  · by_cases hq : rustTrim qout = "active" <;> simp [hval, hq]
  · intro hq
    simp [hval, hq]
  · rw [hval, hval₂]

/-- Witness for C6 at a concrete host: the query answers `"active\n"`, the
second host fails its `stop` command, and the result is success on both. -/
theorem start_service_success_iff_active_witness :
    (((start_service (fun _ => ExecOutcome.exited 0 "active\n" "") "app.service").2
        = .ok ()) ↔ (rustTrim "active\n" = "active")) ∧
    (rustTrim "active\n" ≠ "active" →
      (start_service (fun _ => ExecOutcome.exited 0 "active\n" "") "app.service").2
        = .error ("Service " ++ "app.service" ++ " failed to start")) ∧
    (start_service
        (fun c => if c = systemctlStop "app.service" then ExecOutcome.channelErr "boom"
          else ExecOutcome.exited 0 "active\n" "") "app.service").2
      = (start_service (fun _ => ExecOutcome.exited 0 "active\n" "") "app.service").2 :=
  start_service_success_iff_active
    (fun _ => ExecOutcome.exited 0 "active\n" "")
    (fun c => if c = systemctlStop "app.service" then ExecOutcome.channelErr "boom"
      else ExecOutcome.exited 0 "active\n" "")
    "app.service" "active\n" "" "active\n" "" "active\n" ""
    (fun c hc => by simp [hc]) rfl rfl rfl

/-- Claim C5 (counterexample): the backoff delay is a `u64`, so
`2_u64.pow(attempt - 1)` wraps for attempt ≥ 65.  With `max_attempts = 66`
and every attempt failing, the run performs 65 sleeps and the sleep after
failed attempt 65 (index 64) lasts `2^64 mod 2^64 = 0` seconds, not the
`2^(65-1)` seconds the claim requires — so the for-every-`N ≥ 1` statement
is false of the program. -/
theorem connect_backoff_wraps_at_sixty_six :
    ((connect_with_retry (fun _ => .error "down") 66).1.filterMap
        ConnectEvent.sleepOf).length = 65 ∧
    ((connect_with_retry (fun _ => .error "down") 66).1.filterMap
        ConnectEvent.sleepOf).getD 64 1 = 0 ∧
    (2 : Nat) ^ (65 - 1) ≠ 0 :=
  ⟨by decide, by decide, by decide⟩

/-- Claim C5 (amended): with `max_retries = N ≥ 1` and every attempt
failing, `connect_with_retry` makes exactly the attempts `1..=N` (and no
others), sleeps `2^(i-1) mod 2^64` seconds after each failed attempt
`i < N` (the `u64` backoff wraps in release builds; debug overflow checks
would panic), and returns the error of the last attempt.  Whenever
`N ≤ 65` no delay overflows, so the sleeps are exactly `2^(i-1)` seconds —
attempt 1 has no prior wait, attempt 2 is preceded by a 1s wait, attempt 3
by 2s — and the total wait is `2^0 + 2^1 + ... + 2^(N-2)` seconds. -/
theorem connect_with_retry_exhaustion (f : Nat → Except String Unit)
    (e : Nat → String) (N : Nat) (hN : 1 ≤ N) (hf : ∀ i, f i = .error (e i)) :
    (connect_with_retry f N).1 =
      (List.range' 1 N).flatMap (fun i =>
        ConnectEvent.attempt i ::
          if i < N then [ConnectEvent.sleepSecs (2 ^ (i - 1) % 2 ^ 64)] else []) ∧
    (connect_with_retry f N).1.filterMap ConnectEvent.attemptOf = List.range' 1 N ∧
    (connect_with_retry f N).1.filterMap ConnectEvent.sleepOf
      = (List.range (N - 1)).map (fun i => 2 ^ i % 2 ^ 64) ∧
    (connect_with_retry f N).2 = .error (e N) ∧
    (N ≤ 65 →
      (connect_with_retry f N).1.filterMap ConnectEvent.sleepOf
        = (List.range (N - 1)).map (fun i => 2 ^ i) ∧
      ((connect_with_retry f N).1.filterMap ConnectEvent.sleepOf).sum
        = ∑ i in Finset.range (N - 1), 2 ^ i) := by
  have hmain := connect_attempts_all_fail f e N hf N 1 none (by omega) (by omega)
  have htr : (connect_with_retry f N).1 =
      (List.range' 1 N).flatMap (fun i =>
        ConnectEvent.attempt i ::
          if i < N then [ConnectEvent.sleepSecs (2 ^ (i - 1) % 2 ^ 64)] else []) := by
    rw [connect_with_retry, hmain]
  have hsleep : (connect_with_retry f N).1.filterMap ConnectEvent.sleepOf
      = (List.range (N - 1)).map (fun i => 2 ^ i % 2 ^ 64) := by
    rw [htr, flatMap_filterMap_sleepOf, range'_filter_lt N hN, range'_map_two_pow]
  refine ⟨htr, ?_, hsleep, ?_, ?_⟩
  · rw [htr, flatMap_filterMap_attemptOf]
  · rw [connect_with_retry, hmain]
    simp [if_neg (by omega : ¬(N = 0))]
  · intro hN65
    have hnowrap : (connect_with_retry f N).1.filterMap ConnectEvent.sleepOf
        = (List.range (N - 1)).map (fun i => 2 ^ i) := by
      rw [hsleep, map_two_pow_mod_eq (N - 1) (by omega)]
    exact ⟨hnowrap, by rw [hnowrap, list_sum_two_pow_eq_finset_sum]⟩

/-- Witness for C5 (amended) at `N = 3` with every attempt unreachable:
attempts 1, 2, 3 with 1s and 2s sleeps in between (below the overflow
point, so unwrapped), total wait `2^0 + 2^1`, final error that of
attempt 3. -/
theorem connect_with_retry_exhaustion_witness :
    (1 : Nat) ≤ 3 ∧ (3 : Nat) ≤ 65 ∧
    ((connect_with_retry (fun i => .error ("no route to host " ++ toString i)) 3).1 =
      (List.range' 1 3).flatMap (fun i =>
        ConnectEvent.attempt i ::
          if i < 3 then [ConnectEvent.sleepSecs (2 ^ (i - 1) % 2 ^ 64)] else []) ∧
    (connect_with_retry (fun i => .error ("no route to host " ++ toString i)) 3).1.filterMap
        ConnectEvent.attemptOf = List.range' 1 3 ∧
    (connect_with_retry (fun i => .error ("no route to host " ++ toString i)) 3).2
      = .error ("no route to host " ++ toString 3) ∧
    (connect_with_retry (fun i => .error ("no route to host " ++ toString i)) 3).1.filterMap
        ConnectEvent.sleepOf = (List.range (3 - 1)).map (fun i => 2 ^ i) ∧
    ((connect_with_retry (fun i => .error ("no route to host " ++ toString i)) 3).1.filterMap
        ConnectEvent.sleepOf).sum = ∑ i in Finset.range (3 - 1), 2 ^ i) :=
  ⟨by omega, by omega,
    (connect_with_retry_exhaustion (fun i => .error ("no route to host " ++ toString i))
        (fun i => "no route to host " ++ toString i) 3 (by omega) (fun _ => rfl)).1,
    (connect_with_retry_exhaustion (fun i => .error ("no route to host " ++ toString i))
        (fun i => "no route to host " ++ toString i) 3 (by omega) (fun _ => rfl)).2.1,
    (connect_with_retry_exhaustion (fun i => .error ("no route to host " ++ toString i))
        (fun i => "no route to host " ++ toString i) 3 (by omega) (fun _ => rfl)).2.2.2.1,
    ((connect_with_retry_exhaustion (fun i => .error ("no route to host " ++ toString i))
        (fun i => "no route to host " ++ toString i) 3 (by omega) (fun _ => rfl)).2.2.2.2
      (by omega)).1,
    ((connect_with_retry_exhaustion (fun i => .error ("no route to host " ++ toString i))
        (fun i => "no route to host " ++ toString i) 3 (by omega) (fun _ => rfl)).2.2.2.2
      (by omega)).2⟩

/-- Claim C4: in every deployment run, if the existence probe reports a binary
at the remote target path, the backup `cp` to `<binary>.backup` is issued
before the upload (every upload event in the trace is preceded by the backup
copy); if the probe reports no binary, no `cp` command is issued at all. -/
theorem backup_before_upload (h : Host) (cfg : Config) (bp : String) (cb : Bool) :
    (remote_file_exists h.exec (remote_binary_path cfg) = false →
      ∀ s d, RemoteEvent.cpFile s d ∉ (execute_deployment h cfg bp cb).1) ∧
    (remote_file_exists h.exec (remote_binary_path cfg) = true →
      ∀ lp rp, RemoteEvent.uploadFile lp rp ∈ (execute_deployment h cfg bp cb).1 →
        ∃ pre post, (execute_deployment h cfg bp cb).1 = pre ++ post ∧
          RemoteEvent.cpFile (remote_binary_path cfg) (backup_binary_path cfg) ∈ pre ∧
          RemoteEvent.uploadFile lp rp ∈ post) := by
  refine ⟨fun hpf s d => execute_deployment_no_cp_of_probe_false h cfg bp cb hpf s d, ?_⟩
  intro hpt lp rp hmem
  rcases execute_deployment_upload_decomp h cfg bp cb hpt with hno | hpre
  · exact absurd hmem (hno lp rp)
  · obtain ⟨t, ht⟩ := hpre
    refine ⟨progressIf cb (1667/100) "Connecting to server..." ++ [RemoteEvent.connectAttempt] ++
        progressIf cb (3333/100) "Creating remote directory..." ++
        [RemoteEvent.mkdir cfg.deployPath] ++
        progressIf cb 50 "Uploading binary..." ++
        [RemoteEvent.probeFile (remote_binary_path cfg)] ++
        [RemoteEvent.cpFile (remote_binary_path cfg) (backup_binary_path cfg)],
      RemoteEvent.uploadFile bp (remote_binary_path cfg) :: t, ?_, ?_, ?_⟩
    · rw [← ht]
      simp [List.append_assoc]
    · simp
    · rw [← ht] at hmem
      simp [uploadFile_not_mem_progressIf] at hmem
      rcases hmem with ⟨rfl, rfl⟩ | hmem
      · exact List.mem_cons_self _ _
      · exact List.mem_cons_of_mem _ hmem

/-- Witness for C4: on a host with no remote binary the backup `cp` is
absent from the trace; on a host with an existing binary the trace splits
around the upload with the backup copy on the earlier side. -/
theorem backup_before_upload_witness :
    (RemoteEvent.cpFile (remote_binary_path exCfg) (backup_binary_path exCfg) ∉
      (execute_deployment okHost exCfg "/tmp/bin" false).1) ∧
    (∃ pre post, (execute_deployment existsHost exCfg "/tmp/bin" false).1 = pre ++ post ∧
      RemoteEvent.cpFile (remote_binary_path exCfg) (backup_binary_path exCfg) ∈ pre ∧
      RemoteEvent.uploadFile "/tmp/bin" (remote_binary_path exCfg) ∈ post) :=
  ⟨(backup_before_upload okHost exCfg "/tmp/bin" false).1 (by decide)
      (remote_binary_path exCfg) (backup_binary_path exCfg),
   (backup_before_upload existsHost exCfg "/tmp/bin" false).2 (by decide) "/tmp/bin"
      (remote_binary_path exCfg) (by decide)⟩

/-- Claim C3 (counterexample): in a concrete successful deployment with a
progress callback, six progress events are emitted and the first carries
fraction `16.67`, which is not of the form `stage_index/8 × 100` for any
stage index (the candidates being `0, 12.5, 25, …, 100`). -/
theorem progress_fraction_not_eighths :
    ((execute_deployment okHost exCfg "/tmp/bin" true).1.filterMap
        RemoteEvent.progressOf).head? = some ((1667 : ℚ)/100, "Connecting to server...") ∧
    ((execute_deployment okHost exCfg "/tmp/bin" true).1.filterMap
        RemoteEvent.progressOf).length = 6 ∧
    ((1667 : ℚ)/100) ∉ (List.range 9).map (fun k : ℕ => (k : ℚ) / 8 * 100) :=
  ⟨rfl, rfl, by
    simp only [List.mem_map, List.mem_range, not_exists, not_and]
    intro k hk
    interval_cases k <;> norm_num⟩

/-- Claim C3 (amended): with a progress callback, the emitted progress events
are a prefix of the six events `(16.67, "Connecting to server...")`,
`(33.33, "Creating remote directory...")`, `(50, "Uploading binary...")`,
`(66.67, "Setting executable permissions...")`,
`(83.33, "Creating systemd service...")`, `(100, "Starting service...")` —
one per pipeline stage, emitted before that stage executes — and are exactly
those six whenever the deployment succeeds.  The fractions are
`stage_index/6 × 100` rounded to two decimals, not `stage_index/8 × 100`. -/
theorem progress_events_six_stages (h : Host) (cfg : Config) (bp : String) :
    (((execute_deployment h cfg bp true).1.filterMap RemoteEvent.progressOf) <+:
      [((1667 : ℚ)/100, "Connecting to server..."),
       ((3333 : ℚ)/100, "Creating remote directory..."),
       ((50 : ℚ), "Uploading binary..."),
       ((6667 : ℚ)/100, "Setting executable permissions..."),
       ((8333 : ℚ)/100, "Creating systemd service..."),
       ((100 : ℚ), "Starting service...")]) ∧
    (∀ out, (execute_deployment h cfg bp true).2 = .ok out →
      (execute_deployment h cfg bp true).1.filterMap RemoteEvent.progressOf =
        [((1667 : ℚ)/100, "Connecting to server..."),
         ((3333 : ℚ)/100, "Creating remote directory..."),
         ((50 : ℚ), "Uploading binary..."),
         ((6667 : ℚ)/100, "Setting executable permissions..."),
         ((8333 : ℚ)/100, "Creating systemd service..."),
         ((100 : ℚ), "Starting service...")]) := by
  constructor
  · simp only [execute_deployment, progressIf, if_true]
    repeat' split
    all_goals
      simp [RemoteEvent.progressOf, List.filterMap_append,
        create_systemd_service_no_progress, start_service_no_progress]
  · intro out hok
    simp only [execute_deployment, progressIf, if_true] at hok ⊢
    repeat' split at hok
    all_goals simp at hok
    all_goals
      simp [RemoteEvent.progressOf, List.filterMap_append,
        create_systemd_service_no_progress, start_service_no_progress]
    all_goals
      repeat' split
    all_goals simp [RemoteEvent.progressOf]

/-- Witness for C3 (amended) on a concrete successful deployment. -/
theorem progress_events_six_stages_witness :
    (execute_deployment okHost exCfg "/tmp/bin" true).1.filterMap RemoteEvent.progressOf =
      [((1667 : ℚ)/100, "Connecting to server..."),
       ((3333 : ℚ)/100, "Creating remote directory..."),
       ((50 : ℚ), "Uploading binary..."),
       ((6667 : ℚ)/100, "Setting executable permissions..."),
       ((8333 : ℚ)/100, "Creating systemd service..."),
       ((100 : ℚ), "Starting service...")] :=
  (progress_events_six_stages okHost exCfg "/tmp/bin").2
    ("Successfully deployed " ++ exCfg.binary_name ++ " to " ++ exCfg.vpsHost) rfl

/-- Claim C2 (counterexample): on a concrete host where both runs succeed, the
`systemctl` command sequence issued by rollback differs from the one issued
by the fresh-deploy `start_service`: rollback never issues `enable`. -/
theorem rollback_start_sequence_differs :
    (rollback_deployment rollbackHost exCfg).2 = .ok () ∧
    (start_service rollbackHost.exec exCfg.service_name).2 = .ok () ∧
    (rollback_deployment rollbackHost exCfg).1.filter RemoteEvent.isServiceCmd ≠
      (start_service rollbackHost.exec exCfg.service_name).1.filter
        RemoteEvent.isServiceCmd :=
  ⟨rfl, rfl, by decide⟩

/-- Claim C2 (amended): the rollback service sequence is best-effort `stop`,
then (after restoring the backup) `start`, then an `is-active` query that
must answer exactly `"active"` — like the fresh-deploy sequence but with no
`enable` step.  Fresh deploy issues `stop`, `enable`, `start`,
`is-active`. -/
theorem rollback_omits_enable_in_start_sequence (h : Host) (cfg : Config)
    (co ce mo me so se qo qe eo ee : String)
    (hconn : (connect_with_retry h.attemptRes 3).2 = .ok ())
    (hbx : remote_file_exists h.exec (backup_binary_path cfg) = true)
    (hcp : execute_command h.exec
      (cpCmd (backup_binary_path cfg) (remote_binary_path cfg)) = .ok (co, ce))
    (hchmod : execute_command h.exec (chmodCmd (remote_binary_path cfg)) = .ok (mo, me))
    (hstart : execute_command h.exec (systemctlStart cfg.service_name) = .ok (so, se))
    (hquery : execute_command h.exec (systemctlIsActive cfg.service_name) = .ok (qo, qe))
    (henable : execute_command h.exec (systemctlEnable cfg.service_name) = .ok (eo, ee)) :
    (rollback_deployment h cfg).1.filter RemoteEvent.isServiceCmd =
      [.svcStop cfg.service_name, .svcStart cfg.service_name,
        .svcIsActive cfg.service_name] ∧
    ((rollback_deployment h cfg).2 = .ok () ↔ rustTrim qo = "active") ∧
    (start_service h.exec cfg.service_name).1.filter RemoteEvent.isServiceCmd =
      [.svcStop cfg.service_name, .svcEnable cfg.service_name,
        .svcStart cfg.service_name, .svcIsActive cfg.service_name] := by
  rw [remote_binary_path] at hcp hchmod
  rw [backup_binary_path] at hcp hbx
  have hroll : rollback_deployment h cfg =
      ([.connectAttempt, .svcStop cfg.service_name,
        .probeFile (cfg.deployPath ++ "/" ++ cfg.binary_name ++ ".backup")] ++
       [.cpFile (cfg.deployPath ++ "/" ++ cfg.binary_name ++ ".backup")
          (cfg.deployPath ++ "/" ++ cfg.binary_name),
        .chmod (cfg.deployPath ++ "/" ++ cfg.binary_name)] ++
       [.svcStart cfg.service_name, .svcIsActive cfg.service_name],
       if rustTrim qo ≠ "active" then .error "Service failed to start after rollback"
       else .ok ()) := by
    simp only [rollback_deployment, hconn, hbx, hcp, hchmod, hstart, hquery,
      Bool.not_true, Bool.false_eq_true, if_false]
    split <;> rfl
  refine ⟨?_, ?_, ?_⟩
  · rw [hroll]
    simp [RemoteEvent.isServiceCmd]
  · rw [hroll]
    by_cases hq : rustTrim qo = "active" <;> simp [hq]
  · simp only [start_service, henable, hstart, hquery]
    split <;> simp [RemoteEvent.isServiceCmd]

/-- Witness for C2 (amended) on a concrete host with a backup present and a
service that reports `"active"`. -/
theorem rollback_omits_enable_witness :
    (rollback_deployment rollbackHost exCfg).1.filter RemoteEvent.isServiceCmd =
      [.svcStop exCfg.service_name, .svcStart exCfg.service_name,
        .svcIsActive exCfg.service_name] ∧
    ((rollback_deployment rollbackHost exCfg).2 = .ok () ↔ rustTrim "active" = "active") ∧
    (start_service rollbackHost.exec exCfg.service_name).1.filter RemoteEvent.isServiceCmd =
      [.svcStop exCfg.service_name, .svcEnable exCfg.service_name,
        .svcStart exCfg.service_name, .svcIsActive exCfg.service_name] :=
  rollback_omits_enable_in_start_sequence rollbackHost exCfg
    "active" "" "active" "" "active" "" "active" "" "active" ""
    rfl (by decide) rfl rfl rfl rfl rfl


end Rzen
